/-
Verification of the GoonBot playback orchestrator (src/goon.py, src/downloader.py)
against its natural-language specification.

The embedding below translates the queue/state manipulation of the source into
pure Lean functions.  External effects (the Discord voice driver, yt-dlp
network extraction, chat messages) are modelled as oracles or explicit state:
 - the per-guild voice-client status is a key/value map guildId -> VCState;
 - yt-dlp extraction is an oracle giving each attempt's outcome;
 - wall-clock readings (time.time()) are passed explicitly as rationals.
-/
import Mathlib

set_option autoImplicit false
set_option linter.unusedVariables false

namespace Downloader

/-- Metadata dictionary returned by a successful yt-dlp extraction, restricted
to the fields the bot reads (title, url, duration, thumbnail). -/
structure TrackData where
  title : String
  url : String
  duration : ℚ
  thumbnail : Option String
  deriving DecidableEq, Repr

/-- Outcome of one extraction attempt inside YTDLSource.from_url:
the extraction returns usable data, returns an empty/falsy result
(the source's "if not data: continue"), or raises an exception. -/
inductive AttemptOutcome where
  | ok (d : TrackData)
  | empty
  | err (e : String)
  deriving DecidableEq, Repr

/-- Result of YTDLSource.from_url: the source's textually possible outcomes
are a source built from the data (the "return cls(...)" line), the re-raise
of the last attempt's exception ("raise" in the final except branch), and the
generic terminal "All extraction attempts failed" exception after the loop.
Only the re-raise is reachable: the await at src/downloader.py line 83 raises
on every attempt (see attemptError), so the return and the post-loop raise
are dead code. -/
inductive FromUrlResult where
  | ok (d : TrackData)
  | reraised (e : String)
  | genericFail
  deriving DecidableEq, Repr

/-- Observable trace of one call to YTDLSource.from_url: how many attempts ran,
the seconds slept before attempts (the "await asyncio.sleep(1)" calls), the
identity of the fresh YoutubeDL instance created for each attempt (indexed by
attempt number), and the final result. -/
structure FromUrlTrace where
  attemptsMade : Nat
  sleeps : List Nat
  contexts : List Nat
  result : FromUrlResult
  deriving DecidableEq, Repr

/-- max_attempts in YTDLSource.from_url. -/
def max_attempts : Nat := 3

/-- The exception the try block of an attempt surfaces, given what that
attempt's extract_info call does.  At src/downloader.py line 83 extract_info
is called eagerly and its result — an info dict or a falsy value, never a
callable — is passed as the func argument of run_in_executor, so: when
extract_info itself raised, that exception propagates; when it returned
(usable or empty data alike), awaiting the executor raises a TypeError for
invoking a non-callable.  Every attempt therefore ends in the except
branch. -/
def attemptError : AttemptOutcome → String
  | AttemptOutcome.err e => e
  | _ => "TypeError: the extraction result is not callable"

/-- The retry loop of YTDLSource.from_url.  First argument of the recursion is
the current attempt index (the loop variable of "for attempt in range(3)"),
second is the remaining iteration count of the range.  Each iteration sleeps 1
second when attempt > 0, creates a fresh YoutubeDL instance (recorded by its
attempt index), and runs the try block, which always raises — attemptError of
the attempt's extract_info outcome (see attemptError): the except branch
re-raises that error when this was the last attempt and otherwise continues.
The success return and the "if not data: continue" path that follow the await
in the source are unreachable, as is the post-loop generic raise (the fuel-0
case below, kept to mirror the source text: from_url enters with fuel 3 and
the last iteration always re-raises first). -/
def fromUrlGo (att : Nat → AttemptOutcome) : Nat → Nat → FromUrlTrace
  | _, 0 => ⟨0, [], [], .genericFail⟩
  | k, fuel + 1 =>
    let pre : List Nat := if 0 < k then [1] else []
    if k = max_attempts - 1 then ⟨1, pre, [k], .reraised (attemptError (att k))⟩
    else
      let t := fromUrlGo att (k + 1) fuel
      ⟨t.attemptsMade + 1, pre ++ t.sleeps, k :: t.contexts, t.result⟩

/-- YTDLSource.from_url, as the trace of its retry loop run from attempt 0
with max_attempts iterations available. -/
def from_url (att : Nat → AttemptOutcome) : FromUrlTrace :=
  fromUrlGo att 0 max_attempts

end Downloader

namespace GoonBot

open Downloader

/-- Status of a guild's voice client, as discord.py reports it:
is_playing() holds exactly in state playing, is_paused() exactly in paused. -/
inductive VCState where
  | playing
  | paused
  | idle
  deriving DecidableEq, Repr

/-- One entry of the module-level current_songs dictionary (src/goon.py),
restricted to the fields the progress accounting reads. -/
structure SongInfo where
  title : String
  playing : Bool
  start_time : ℚ
  duration : ℚ
  paused_at : Option ℚ
  total_pause_time : ℚ
  thumbnail : Option String
  deriving DecidableEq, Repr

/-- Key/value maps keyed by guild id, modelling the module-level Python dicts. -/
abbrev KV (α : Type) : Type := List (Nat × α)

/-- Dictionary lookup: d.get(g) / g in d. -/
def lookupKey {α : Type} (g : Nat) : KV α → Option α
  | [] => none
  | (k, v) :: r => if k = g then some v else lookupKey g r

/-- Dictionary deletion: del d[g] (no-op when absent, matching the guarded
"if g in d: del d[g]" uses in the source). -/
def eraseKey {α : Type} (g : Nat) (m : KV α) : KV α :=
  m.filter (fun p => p.1 ≠ g)

/-- Dictionary write: d[g] = v. -/
def insertKey {α : Type} (g : Nat) (v : α) (m : KV α) : KV α :=
  (g, v) :: eraseKey g m

/-- In-place update of an existing entry, modelling the source's
"if g in d: mutate d[g]" pattern (absent keys are left alone). -/
def updateKey {α : Type} (g : Nat) (f : α → α) : KV α → KV α
  | [] => []
  | (k, v) :: r => if k = g then (k, f v) :: r else (k, v) :: updateKey g f r

/-- The module-level mutable state of src/goon.py that the playback logic
touches: the single global queue (line 62), the current_songs dictionary, and
the per-guild voice-client status (absence from vc = not connected). -/
structure BotState where
  queue : List String
  current_songs : KV SongInfo
  vc : KV VCState
  deriving DecidableEq, Repr

/-- discord.py predicate VoiceClient.is_playing() for guild g. -/
def is_playingB (s : BotState) (g : Nat) : Bool :=
  lookupKey g s.vc = some VCState.playing

/-- discord.py predicate VoiceClient.is_paused() for guild g. -/
def is_pausedB (s : BotState) (g : Nat) : Bool :=
  lookupKey g s.vc = some VCState.paused

/-- Python truthiness of the paused_at field (None and 0.0 are falsy),
as tested by "if info.get(\x22paused_at\x22):" in the source. -/
def pyTruthy : Option ℚ → Bool
  | none => false
  | some x => x != 0

/-- The elapsed-playing-time computation of update_player
(src/goon.py lines 206-209): if paused_at is truthy, elapsed =
paused_at - start_time - total_pause_time, else
elapsed = now - start_time - total_pause_time.  No lower clamp is applied. -/
def elapsedOf (info : SongInfo) (now : ℚ) : ℚ :=
  (if pyTruthy info.paused_at then info.paused_at.getD now else now)
    - info.start_time - info.total_pause_time

/-- The current_songs entry written by play_next on a successful resolution
(src/goon.py lines 318-326). -/
def mkSong (d : TrackData) (now : ℚ) : SongInfo :=
  { title := d.title
    playing := true
    start_time := now
    duration := d.duration
    paused_at := none
    total_pause_time := 0
    thumbnail := d.thumbnail }

/-- The loop/recursion of play_next (src/goon.py lines 289-337) over the
global queue, given the resolution oracle (YTDLSource.from_url succeeding with
track data, or raising).  Empty queue: delete the guild's current_songs entry
(Idle).  Otherwise resolve the front item; on success pop it, store the new
current_songs entry and start the voice client; on failure pop it and recurse
on the rest (the except branch: pop, notify, sleep, play_next again).
Returns the new (queue, current_songs, vc) triple. -/
def playNextGo (resolve : String → Option TrackData) (now : ℚ) (g : Nat)
    (cur : KV SongInfo) (vc : KV VCState) :
    List String → List String × KV SongInfo × KV VCState
  | [] => ([], eraseKey g cur, vc)
  | q :: rest =>
    match resolve q with
    | some d => (rest, insertKey g (mkSong d now) cur, insertKey g VCState.playing vc)
    | none => playNextGo resolve now g cur vc rest

/-- play_next (src/goon.py lines 289-337).  The guard at line 291 returns
immediately unless the guild has a voice client. -/
def play_next (resolve : String → Option TrackData) (now : ℚ) (g : Nat)
    (s : BotState) : BotState :=
  match lookupKey g s.vc with
  | none => s
  | some _ =>
    let r := playNextGo resolve now g s.current_songs s.vc s.queue
    { queue := r.1, current_songs := r.2.1, vc := r.2.2 }

/-- handle_playback_error (src/goon.py lines 341-345): the completion
callback installed by voice_client.play.  It logs the error, if any, and
unconditionally calls play_next — the notification carries no track identity
and no staleness check is made. -/
def handle_playback_error (resolve : String → Option TrackData) (now : ℚ)
    (g : Nat) (error : Option String) (s : BotState) : BotState :=
  play_next resolve now g s

/-- The queue-append step shared by the goon, search and playlist commands:
queue.append(url) on the module-level queue. -/
def enqueueRef (url : String) (s : BotState) : BotState :=
  { s with queue := s.queue ++ [url] }

/-- The ordered list of pending track references serving tenant (guild) g.
The source keeps no per-tenant queue: every command of every guild reads and
mutates the single module-level list "queue" (src/goon.py line 62), so the
queue observed by any tenant is that global list. -/
def pendingQueue (s : BotState) (g : Nat) : List String :=
  s.queue

/-- The stop chat command (src/goon.py lines 612-618): only when
VoiceClient.is_playing() — which is false while paused — stop playback and
clear the global queue; otherwise reply "No audio is playing" and change
nothing. -/
def stopCmd (g : Nat) (s : BotState) : BotState :=
  if is_playingB s g then
    { s with queue := [], vc := insertKey g VCState.idle s.vc }
  else s

/-- The stop button handler (src/goon.py lines 130-144): when is_playing() or
is_paused(), clear the global queue and stop playback. -/
def stopButton (g : Nat) (s : BotState) : BotState :=
  if is_playingB s g || is_pausedB s g then
    { s with queue := [], vc := insertKey g VCState.idle s.vc }
  else s

/-- The pause chat command (src/goon.py lines 592-597): pause the voice
client when playing.  It never touches current_songs, so no pause time is
recorded in the ledger. -/
def pauseCmd (g : Nat) (s : BotState) : BotState :=
  if is_playingB s g then { s with vc := insertKey g VCState.paused s.vc }
  else s

/-- Ledger update of the play/pause button's pause branch
(src/goon.py lines 103-105): playing := False, paused_at := now. -/
def onPauseButton (now : ℚ) (i : SongInfo) : SongInfo :=
  { i with playing := false, paused_at := some now }

/-- Ledger update of the play/pause button's resume branch
(src/goon.py lines 92-98): when paused_at is truthy, add now - paused_at to
total_pause_time and clear paused_at; in every case playing := True. -/
def onResumeButton (now : ℚ) (i : SongInfo) : SongInfo :=
  let i' :=
    if pyTruthy i.paused_at then
      { i with total_pause_time := i.total_pause_time + (now - i.paused_at.getD 0)
               paused_at := none }
    else i
  { i' with playing := true }

/-- The play/pause button handler (src/goon.py lines 82-108): resume when
paused, pause when playing, otherwise nothing; the ledger entry (when the
guild has one) is updated by the matching branch. -/
def playPauseButton (now : ℚ) (g : Nat) (s : BotState) : BotState :=
  if is_pausedB s g then
    { s with vc := insertKey g VCState.playing s.vc
             current_songs := updateKey g (onResumeButton now) s.current_songs }
  else if is_playingB s g then
    { s with vc := insertKey g VCState.paused s.vc
             current_songs := updateKey g (onPauseButton now) s.current_songs }
  else s

/-- Python str.lower() (character-wise lowercasing; the ASCII range, which is
all the goon command's comparison against its two plain-ASCII domain strings
can distinguish). -/
def pyLower (s : String) : String :=
  String.mk (s.data.map Char.toLower)

/-- The list youtube_domains of the goon command (src/goon.py line 359). -/
def youtube_domains : List String := ["youtube.com", "youtu.be"]

/-- Which branch the goon command takes for a query
(src/goon.py line 360): "if query.lower() in youtube_domains" — list
membership, so only the two exact strings qualify. -/
inductive GoonRoute where
  | direct (q : String)
  | topSearch
  deriving DecidableEq, Repr

/-- Routing decision of the goon command for a query. -/
def goonRoute (query : String) : GoonRoute :=
  if pyLower query ∈ youtube_domains then GoonRoute.direct query
  else GoonRoute.topSearch

/-- One entry of a ytsearch result, restricted to the fields read. -/
structure SearchEntry where
  title : String
  url : String
  deriving DecidableEq, Repr

/-- The reference the goon command appends to the queue
(src/goon.py lines 359-389): the query itself on the direct branch; on the
search branch the url field of the first ytsearch1 entry, or nothing when the
result list is empty (the command returns before appending). -/
def goonEnqueued (query : String) (entries : List SearchEntry) : Option String :=
  match goonRoute query with
  | GoonRoute.direct u => some u
  | GoonRoute.topSearch => entries.head?.map SearchEntry.url

/-- Runtime value of ctx.voice_client: in discord.py it is either None or the
connected VoiceClient instance — never a VoiceChannel. -/
inductive VoiceClientVal where
  | nullVC
  | client (st : VCState)
  deriving DecidableEq, Repr

/-- The Python classes the search command's guard mentions. -/
inductive PyClass where
  | NoneType
  | VoiceClientClass
  | VoiceChannelClass
  deriving DecidableEq, Repr

/-- Runtime class of a ctx.voice_client value. -/
def classOf : VoiceClientVal → PyClass
  | VoiceClientVal.nullVC => PyClass.NoneType
  | VoiceClientVal.client _ => PyClass.VoiceClientClass

/-- isinstance(v, c) for the classes above (none is a subclass of another). -/
def isinstanceB (v : VoiceClientVal) (c : PyClass) : Bool :=
  classOf v = c

/-- is_playing() on a voice-client value (False when None, per short-circuit). -/
def vcIsPlaying : VoiceClientVal → Bool
  | VoiceClientVal.client VCState.playing => true
  | _ => false

/-- The guard at src/goon.py line 479:
"isinstance(ctx.voice_client, VoiceChannel) and not ctx.voice_client.is_playing()".
The isinstance test names VoiceChannel, not VoiceClient. -/
def searchSelectGuard (v : VoiceClientVal) : Bool :=
  isinstanceB v PyClass.VoiceChannelClass && !(vcIsPlaying v)

/-- The commit step of the search command after the user picks a result
(src/goon.py lines 464-480): append the selected URL to the queue, then start
playback only if the guard holds. -/
def searchSelect (resolve : String → Option TrackData) (now : ℚ) (g : Nat)
    (v : VoiceClientVal) (url : String) (s : BotState) : BotState :=
  let s1 := { s with queue := s.queue ++ [url] }
  if searchSelectGuard v then play_next resolve now g s1 else s1

/-! Concrete states and oracles used by witnesses and counterexamples. -/

/-- A current_songs entry for a track started at t = 10 and never paused. -/
def infoSkew : SongInfo :=
  { title := "Example", playing := true, start_time := 10, duration := 100
    paused_at := none, total_pause_time := 0, thumbnail := none }

/-- A current_songs entry for a track started at t = 0 and never paused. -/
def infoBase : SongInfo :=
  { title := "Example", playing := true, start_time := 0, duration := 100
    paused_at := none, total_pause_time := 0, thumbnail := none }

/-- A state in which guild 1 is playing infoBase and one reference enqueued by
guild 2 is pending in the module-level queue. -/
def stateShared : BotState :=
  { queue := ["tenant2-song"]
    current_songs := [(2, infoBase)]
    vc := [(1, VCState.playing), (2, VCState.playing)] }

/-- Resolution oracle on which every reference fails. -/
def resolveNone : String → Option TrackData := fun _ => none

/-- A state in which guild 1 has a voice client and a two-item queue. -/
def stateTwoPending : BotState :=
  { queue := ["ref-a", "ref-b"]
    current_songs := [(1, infoBase)]
    vc := [(1, VCState.playing)] }

/-- A concrete track playing in guild 1, started at t = 0. -/
def infoCurrentA : SongInfo := mkSong { title := "Track A", url := "urlA", duration := 200, thumbnail := none } 0

/-- A state in which guild 1 is still playing Track A with one pending item. -/
def stateStale : BotState :=
  { queue := ["urlB"]
    current_songs := [(1, infoCurrentA)]
    vc := [(1, VCState.playing)] }

/-- Resolution oracle that resolves urlB and nothing else. -/
def resolveB : String → Option TrackData :=
  fun q => if q = "urlB" then some { title := "Track B", url := "urlB", duration := 100, thumbnail := none } else none

/-- A state in which guild 1 is playing infoSkew (started at t = 10). -/
def statePlaying : BotState :=
  { queue := ["next-song"]
    current_songs := [(1, infoSkew)]
    vc := [(1, VCState.playing)] }

/-- A paused track in guild 1 (paused by the button at t = 40). -/
def infoPausedTrack : SongInfo :=
  { title := "Example", playing := false, start_time := 0, duration := 100
    paused_at := some 40, total_pause_time := 0, thumbnail := none }

/-- A state in which guild 1 is paused with a pending queue item. -/
def statePaused : BotState :=
  { queue := ["queued-song"]
    current_songs := [(1, infoPausedTrack)]
    vc := [(1, VCState.paused)] }

/-- Claim C9: in the goon command a query is enqueued verbatim as a direct URL
only when the whole query string, lowercased, is exactly "youtube.com" or
"youtu.be" (list membership, not substring); every other query, a complete
watch URL included, goes through the ytsearch1 path and the url field of the
first search result is what gets enqueued. -/
theorem goon_direct_url_routing (q : String) (entries : List SearchEntry) :
    (goonRoute q = GoonRoute.direct q ↔
      (pyLower q = "youtube.com" ∨ pyLower q = "youtu.be"))
    ∧ (goonRoute q = GoonRoute.topSearch ↔
      ¬(pyLower q = "youtube.com" ∨ pyLower q = "youtu.be"))
    ∧ (goonRoute q = GoonRoute.topSearch →
      goonEnqueued q entries = entries.head?.map SearchEntry.url) := by
  by_cases h : pyLower q ∈ youtube_domains
  · have h' : pyLower q = "youtube.com" ∨ pyLower q = "youtu.be" := by
      simpa [youtube_domains] using h
    simp [goonRoute, goonEnqueued, h, h']
  · have h' : ¬(pyLower q = "youtube.com" ∨ pyLower q = "youtu.be") := by
      simpa [youtube_domains] using h
    simp [goonRoute, goonEnqueued, h, h']

/-- Witness for C9: a complete YouTube watch URL is not enqueued verbatim;
the first search result's url field is enqueued instead. -/
theorem goon_direct_url_routing_witness :
    goonEnqueued "https://www.youtube.com/watch?v=dQw4w9WgXcQ"
        [{ title := "Top Hit", url := "https://resolved.example/top" }]
      = some "https://resolved.example/top" := by
  have h := (goon_direct_url_routing "https://www.youtube.com/watch?v=dQw4w9WgXcQ"
    [{ title := "Top Hit", url := "https://resolved.example/top" }]).2.2 (by decide)
  simpa using h

/-- Claim C10: after the user picks a search result, the selected URL is
appended to the queue but playback is never started by this flow: the guard
compares ctx.voice_client against the VoiceChannel class, which no possible
voice-client value (None or a VoiceClient instance) satisfies, so the guard
is always false. -/
theorem search_select_never_starts_playback (resolve : String → Option TrackData)
    (now : ℚ) (g : Nat) (v : VoiceClientVal) (url : String) (s : BotState) :
    searchSelect resolve now g v url s = { s with queue := s.queue ++ [url] }
    ∧ searchSelectGuard v = false := by
  have hg : searchSelectGuard v = false := by
    cases v with
    | nullVC => rfl
    | client st => rfl
  simp [searchSelect, hg]

/-- Counterexample to claim C4: elapsed time is not clamped at 0.  With a
start_time of 10 and a clock reading of 5, the computation of update_player
yields -5. -/
theorem elapsed_not_clamped_counterexample :
    elapsedOf infoSkew 5 = -5 ∧ elapsedOf infoSkew 5 < 0 := by
  constructor
  · simp [elapsedOf, infoSkew, pyTruthy]
    norm_num
  · simp [elapsedOf, infoSkew, pyTruthy]
    norm_num

/-- Claim C4 as amended: ElapsedPlayingSeconds(ledger, now) equals
(pausedAt if set — and nonzero, by Python truthiness — otherwise now) minus
startedAt minus accumulatedPauseSeconds, and the result is NOT clamped at 0:
it is negative whenever the subtraction produces a negative value. -/
theorem elapsed_formula_no_clamp (info : SongInfo) (now : ℚ)
    (h : info.paused_at ≠ some 0) :
    elapsedOf info now
      = info.paused_at.getD now - info.start_time - info.total_pause_time
    ∧ elapsedOf infoSkew 5 < 0 := by
  refine ⟨?_, by simp [elapsedOf, infoSkew, pyTruthy]; norm_num⟩
  cases hp : info.paused_at with
  | none => simp [elapsedOf, pyTruthy, hp]
  | some p =>
    have hp0 : p ≠ 0 := by
      intro hz
      exact h (hz ▸ hp)
    simp [elapsedOf, pyTruthy, hp, bne_iff_ne, hp0]

/-- Witness for C4 as amended: the formula at a paused ledger. -/
theorem elapsed_formula_no_clamp_witness :
    elapsedOf { title := "W", playing := false, start_time := 1, duration := 100
                paused_at := some 3, total_pause_time := 1, thumbnail := none } 50
      = (Option.getD (some 3) 50 : ℚ) - 1 - 1
    ∧ elapsedOf infoSkew 5 < 0 :=
  elapsed_formula_no_clamp
    { title := "W", playing := false, start_time := 1, duration := 100
      paused_at := some 3, total_pause_time := 1, thumbnail := none } 50 (by decide)

/-- Counterexample to claim C6: pausing at t1 = 0 and resuming at t2 = 1
(0 < 1) leaves accumulatedPauseSeconds unchanged (0, not increased by 1) and
leaves pausedAt set to 0 rather than cleared: the resume handler's Python
truthiness test "if info.get(\x22paused_at\x22):" treats 0.0 as unset. -/
theorem pause_resume_zero_counterexample :
    (onResumeButton 1 (onPauseButton 0 infoBase)).total_pause_time = 0
    ∧ (onResumeButton 1 (onPauseButton 0 infoBase)).paused_at = some 0 := by
  constructor <;> simp [onPauseButton, onResumeButton, pyTruthy, infoBase]

/-- Claim C6 as amended: applying OnPause at time t1 and OnResume at time t2,
with t1 < t2 and t1 ≠ 0, increases accumulatedPauseSeconds by exactly t2 - t1
and clears pausedAt (at t1 = 0 the truthiness test skips both updates). -/
theorem pause_resume_roundtrip (i : SongInfo) (t1 t2 : ℚ)
    (h0 : t1 ≠ 0) (hlt : t1 < t2) :
    (onResumeButton t2 (onPauseButton t1 i)).total_pause_time
      = i.total_pause_time + (t2 - t1)
    ∧ (onResumeButton t2 (onPauseButton t1 i)).paused_at = none := by
  constructor <;> simp [onPauseButton, onResumeButton, pyTruthy, bne_iff_ne, h0]

/-- Witness for C6 as amended: pause at 10, resume at 15 adds exactly 5. -/
theorem pause_resume_roundtrip_witness :
    (onResumeButton 15 (onPauseButton 10 infoBase)).total_pause_time
      = infoBase.total_pause_time + (15 - 10)
    ∧ (onResumeButton 15 (onPauseButton 10 infoBase)).paused_at = none :=
  pause_resume_roundtrip infoBase 10 15 (by norm_num) (by norm_num)

/-- Counterexample to claim C1: a stop issued in guild 1's context empties the
queue that guild 2 observes, because the source keeps one module-level queue
for all guilds rather than one per tenant. -/
theorem shared_queue_counterexample :
    pendingQueue (stopCmd 1 stateShared) 2 ≠ pendingQueue stateShared 2 := by
  decide

/-- Claim C1 as amended: all tenants share a single process-wide queue of
pending track references; a queue operation performed in one tenant's context
mutates the queue observed by every other tenant — a stop-and-clear by any
tenant whose playback is active empties every tenant's pending queue, and an
enqueue by any tenant appends to every tenant's pending queue. -/
theorem shared_queue_across_tenants (s : BotState) (g g' : Nat) (url : String)
    (h : is_playingB s g = true) :
    pendingQueue (stopCmd g s) g' = []
    ∧ pendingQueue (enqueueRef url s) g' = pendingQueue s g' ++ [url] := by
  constructor
  · simp [pendingQueue, stopCmd, h]
  · simp [pendingQueue, enqueueRef]

/-- Witness for C1 as amended: guild 1 stopping clears what guild 2 sees. -/
theorem shared_queue_across_tenants_witness :
    pendingQueue (stopCmd 1 stateShared) 2 = []
    ∧ pendingQueue (enqueueRef "u" stateShared) 2
        = pendingQueue stateShared 2 ++ ["u"] :=
  shared_queue_across_tenants stateShared 1 2 "u" (by decide)

/-- Auxiliary: when every reference in the remaining queue fails to resolve,
the play_next recursion pops them all and deletes the guild's current_songs
entry, leaving the voice-client map untouched. -/
theorem playNextGo_all_fail (resolve : String → Option TrackData) (now : ℚ)
    (g : Nat) (cur : KV SongInfo) (vc : KV VCState) :
    ∀ qs : List String, (∀ x ∈ qs, resolve x = none) →
      playNextGo resolve now g cur vc qs = ([], eraseKey g cur, vc) := by
  intro qs h
  induction qs with
  | nil => rfl
  | cons q rest ih =>
    have hq : resolve q = none := h q (by simp)
    have hrest : ∀ x ∈ rest, resolve x = none := fun x hx => h x (by simp [hx])
    simp [playNextGo, hq, ih hrest]

/-- Claim C2: when resolution of the front queue item fails, play_next drops
that reference (the run continues exactly as if the queue had started at the
next item, so the failed reference is never re-enqueued) and immediately
attempts the next item; when every item of the queue fails to resolve, the
run ends with an empty queue and no current track (Idle), never raising. -/
theorem failed_resolution_skips (resolve : String → Option TrackData) (now : ℚ)
    (g : Nat) (s : BotState) (hvc : (lookupKey g s.vc).isSome = true) :
    (∀ q rest, s.queue = q :: rest → resolve q = none →
      play_next resolve now g s = play_next resolve now g { s with queue := rest })
    ∧ ((∀ x ∈ s.queue, resolve x = none) →
      play_next resolve now g s
        = { s with queue := [], current_songs := eraseKey g s.current_songs }) := by
  obtain ⟨v, hv⟩ := Option.isSome_iff_exists.mp hvc
  constructor
  · intro q rest hq hr
    simp [play_next, hv, hq, playNextGo, hr]
  · intro hall
    simp [play_next, hv, playNextGo_all_fail resolve now g s.current_songs s.vc s.queue hall]

/-- Witness for C2: with every resolution failing, play_next on a two-item
queue ends Idle (no current_songs entry for the guild) with an empty queue. -/
theorem failed_resolution_skips_witness :
    play_next resolveNone 0 1 stateTwoPending
      = { stateTwoPending with
          queue := []
          current_songs := eraseKey 1 stateTwoPending.current_songs } :=
  (failed_resolution_skips resolveNone 0 1 stateTwoPending (by decide)).2
    (fun x hx => rfl)

/-- Counterexample to claim C7: the completion callback carries no track
identity and handle_playback_error makes no staleness check, so processing a
late or duplicate completion notification while Track A is still current is
not a no-op — it replaces the current track and pops the queue. -/
theorem stale_completion_counterexample :
    lookupKey 1 (handle_playback_error resolveB 100 1 none stateStale).current_songs
      ≠ lookupKey 1 stateStale.current_songs
    ∧ (handle_playback_error resolveB 100 1 none stateStale).queue
      ≠ stateStale.queue := by
  decide

/-- Claim C7 as amended: every completion notification — stale or duplicate
included — unconditionally advances the session: when the guild has a voice
client and the queue head resolves, processing any notification pops the head
and installs it as the new current track. -/
theorem completion_always_advances (resolve : String → Option TrackData)
    (now : ℚ) (g : Nat) (error : Option String) (s : BotState) (d : TrackData)
    (q : String) (rest : List String)
    (hvc : (lookupKey g s.vc).isSome = true)
    (hq : s.queue = q :: rest) (hr : resolve q = some d) :
    handle_playback_error resolve now g error s
      = { queue := rest
          current_songs := insertKey g (mkSong d now) s.current_songs
          vc := insertKey g VCState.playing s.vc } := by
  obtain ⟨v, hv⟩ := Option.isSome_iff_exists.mp hvc
  simp [handle_playback_error, play_next, hv, hq, playNextGo, hr]

/-- Witness for C7 as amended: the stale notification of the counterexample
replaces Track A by Track B and empties the queue. -/
theorem completion_always_advances_witness :
    handle_playback_error resolveB 100 1 none stateStale
      = { queue := []
          current_songs := insertKey 1
            (mkSong { title := "Track B", url := "urlB", duration := 100, thumbnail := none } 100)
            stateStale.current_songs
          vc := insertKey 1 VCState.playing stateStale.vc } :=
  completion_always_advances resolveB 100 1 none stateStale
    { title := "Track B", url := "urlB", duration := 100, thumbnail := none }
    "urlB" [] (by decide) (by decide) (by decide)

/-- Claim C5 is right and the code is wrong (code bug): the pause chat command
transitions the voice client Playing→Paused but never records the pause time
— the guild's ledger entry is left with paused_at = none, so
ElapsedPlayingSeconds keeps growing throughout the Paused interval (here it
is strictly larger at t = 30 than at t = 20) instead of being frozen.  The
play/pause button, by contrast, does record paused_at (see onPauseButton). -/
theorem pause_command_skips_ledger :
    is_pausedB (pauseCmd 1 statePlaying) 1 = true
    ∧ lookupKey 1 (pauseCmd 1 statePlaying).current_songs = some infoSkew
    ∧ infoSkew.paused_at = none
    ∧ elapsedOf infoSkew 20 < elapsedOf infoSkew 30 := by
  refine ⟨by decide, by decide, by decide, ?_⟩
  simp [elapsedOf, infoSkew, pyTruthy]
  norm_num

/-- Claim C8 is right and the code is wrong (code bug): invoked while Paused,
the stop chat command changes nothing — VoiceClient.is_playing() is false
while paused, so the command replies "No audio is playing" and leaves the
queue, the current track and playback untouched.  The stop button checks
is_playing() or is_paused() and does implement the claim: it clears the queue,
stops playback, and the completion callback then ends the session Idle (no
current_songs entry) with an empty queue. -/
theorem stop_command_noop_while_paused :
    stopCmd 1 statePaused = statePaused
    ∧ statePaused.queue = ["queued-song"]
    ∧ (stopButton 1 statePaused).queue = []
    ∧ handle_playback_error resolveNone 50 1 none (stopButton 1 statePaused)
        = { queue := [], current_songs := [], vc := [(1, VCState.idle)] } := by
  decide

end GoonBot

namespace Downloader

/-- Claim C3: from_url makes at most 3 extraction attempts per call (in fact
exactly 3: every attempt ends in the except branch, since line 83 passes
extract_info's eagerly computed result as run_in_executor's non-callable
func), waits a fixed 1 second before every attempt after the first, and
creates a fresh, isolated extraction context for each attempt (the YoutubeDL
instances used are pairwise distinct, one per attempt); the terminal error is
raised only after the final (3rd) attempt has failed and it carries the last
underlying error: the final attempt's exception, re-raised. -/
theorem from_url_retry_policy (att : Nat → AttemptOutcome) :
    (from_url att).attemptsMade ≤ 3
    ∧ (from_url att).attemptsMade = 3
    ∧ (from_url att).sleeps = List.replicate ((from_url att).attemptsMade - 1) 1
    ∧ (from_url att).contexts = List.range (from_url att).attemptsMade
    ∧ (from_url att).result = FromUrlResult.reraised (attemptError (att 2)) := by
  have h : from_url att
      = ⟨3, [1, 1], [0, 1, 2], FromUrlResult.reraised (attemptError (att 2))⟩ := rfl
  rw [h]
  exact ⟨by norm_num, rfl, rfl, rfl, rfl⟩

end Downloader
